import Mathlib

/-!
Verification development for the FileUploadSDK file-intake widget
(src/file-upload-sdk.js).

The core state machine is embedded shallowly:
* a browser `File` object is `JsFile` (name, size in bytes, declared MIME type);
* the instance configuration `this.config` is the immutable `Config`;
* the mutable instance state (`this.selectedFiles`, the preview area DOM and
  the in-flight FileReader continuations) is `SDKState`;
* each public operation and each asynchronous completion is a state
  transformer; callback invocations are recorded in an event log.
-/

namespace FileUploadSDK

/-- A browser File object as observed by the SDK: `name`, `size` (bytes) and
declared MIME `type`. -/
structure JsFile where
  name : String
  size : Nat
  type : String
deriving DecidableEq

/-- Callback invocations, in dispatch order: `onFileAdded`, `onFileRemoved`,
`onValidationFail` from the configuration. -/
inductive Event where
  | fileAdded (file : JsFile)
  | fileRemoved (name : String)
  | validationFail (message : String)
deriving DecidableEq

/-- The resolved `this.config` fields that the intake logic reads. -/
structure Config where
  maxFiles : Nat
  maxSizeMB : Nat
  allowedTypes : List String
deriving DecidableEq

/-- The `typeMap` literal of `_getAllowedTypesString`. -/
def typeMap : String → Option String
  | "image/jpeg" => some "JPG"
  | "image/png" => some "PNG"
  | "image/gif" => some "GIF"
  | "image/webp" => some "WEBP"
  | "application/pdf" => some "PDF"
  | "image/svg+xml" => some "SVG"
  | _ => none

/-- One entry of `_getAllowedTypesString`'s map:
`typeMap[type] || type.split('/')[1]?.toUpperCase() || type`. -/
def displayType (t : String) : String :=
  match typeMap t with
  | some s => s
  | none =>
    match (t.splitOn "/").drop 1 with
    | [] => t
    | second :: _ => if second.toUpper = "" then t else second.toUpper

/-- `_getAllowedTypesString()`: human-readable rendering of the allowed types. -/
def getAllowedTypesString (allowedTypes : List String) : String :=
  let types := allowedTypes.map displayType
  if types.length > 0 then String.intercalate ", " types ++ " only" else ""

/-- `(file.size / 1024 / 1024).toFixed(2)`: the file size in MB to two decimal
places (exact rational rounding to the nearest hundredth, half up; the double
division is exact at every input used in the tests below). -/
def toFixed2MB (size : Nat) : String :=
  let hundredths := (size * 100 + 524288) / 1048576
  toString (hundredths / 100) ++ "." ++
    (if hundredths % 100 < 10 then "0" else "") ++ toString (hundredths % 100)

/-- The capacity-rejection message of `_handleFiles`. -/
def capacityMsg (cfg : Config) : String :=
  "Maximum number of files (" ++ toString cfg.maxFiles ++ ") reached."

/-- The type-rejection message of `_validateFile`. -/
def typeMsg (cfg : Config) (file : JsFile) : String :=
  "File type not allowed: " ++ file.name ++ " (" ++
    (if file.type = "" then "unknown" else file.type) ++ "). " ++
    getAllowedTypesString cfg.allowedTypes ++ "."

/-- The size-rejection message of `_validateFile`. -/
def sizeMsg (cfg : Config) (file : JsFile) : String :=
  "File is too large: " ++ file.name ++ " (" ++ toFixed2MB file.size ++
    " MB). Maximum size is " ++ toString cfg.maxSizeMB ++ " MB."

/-- `_validateFile(file)`: type check, then size check; `none` means valid. -/
def validateFile (cfg : Config) (file : JsFile) : Option String :=
  if !(cfg.allowedTypes.contains file.type) then
    some (typeMsg cfg file)
  else
    let maxSizeBytes := cfg.maxSizeMB * 1024 * 1024
    if file.size > maxSizeBytes then
      some (sizeMsg cfg file)
    else
      none

/-- One preview element in (or detached from) the preview area:
`previewContainer` with `dataset.fileName` and whether an `img` child has been
appended by a completed FileReader. -/
structure DomContainer where
  cid : Nat
  fileName : String
  hasImage : Bool
deriving DecidableEq

/-- The mutable instance state: the registry `this.selectedFiles`, every
preview container ever created (`containers`, identified by `cid`), the ids
currently attached to the preview area in document order (`attached`), the
container ids with an in-flight FileReader (`pending`), a fresh-id counter and
the log of callback invocations. -/
structure SDKState where
  selectedFiles : List JsFile
  containers : List DomContainer
  attached : List Nat
  pending : List Nat
  nextId : Nat
  events : List Event
deriving DecidableEq

/-- The state right after construction: empty registry, empty preview area. -/
def initState : SDKState := ⟨[], [], [], [], 0, []⟩

/-- `_createPreview(file)`: create a container tagged with the file name and
append it to the preview area; a PDF resolves synchronously to its icon, any
other type starts an asynchronous FileReader (recorded in `pending`). -/
def createPreview (s : SDKState) (file : JsFile) : SDKState :=
  let c : DomContainer := ⟨s.nextId, file.name, false⟩
  if file.type = "application/pdf" then
    { s with containers := s.containers ++ [c], attached := s.attached ++ [c.cid],
             nextId := s.nextId + 1 }
  else
    { s with containers := s.containers ++ [c], attached := s.attached ++ [c.cid],
             pending := s.pending ++ [c.cid], nextId := s.nextId + 1 }

/-- The duplicate test of `_handleFiles`:
`this.selectedFiles.some(f => f.name === file.name && f.size === file.size)`. -/
def isDuplicate (s : SDKState) (file : JsFile) : Bool :=
  s.selectedFiles.any (fun f => f.name == file.name && f.size == file.size)

/-- The per-candidate body of `_handleFiles`: capacity check, then
`_validateFile`, then duplicate skip, then admission (append, preview,
`onFileAdded`). -/
def handleFile (cfg : Config) (s : SDKState) (file : JsFile) : SDKState :=
  if s.selectedFiles.length ≥ cfg.maxFiles then
    { s with events := s.events ++ [Event.validationFail (capacityMsg cfg)] }
  else
    match validateFile cfg file with
    | some err => { s with events := s.events ++ [Event.validationFail err] }
    | none =>
      if isDuplicate s file then
        s
      else
        let s1 := { s with selectedFiles := s.selectedFiles ++ [file] }
        let s2 := createPreview s1 file
        { s2 with events := s2.events ++ [Event.fileAdded file] }

/-- `_handleFiles(files)` / `addFiles(files)`: process the candidates strictly
in input order. -/
def handleFiles (cfg : Config) (s : SDKState) (files : List JsFile) : SDKState :=
  files.foldl (handleFile cfg) s

/-- The file name recorded on a container (`data-file-name`). -/
def containerName (s : SDKState) (cid : Nat) : Option String :=
  (s.containers.find? (fun c => c.cid == cid)).map DomContainer.fileName

/-- `removeFile(fileName)`: filter the registry by name, remove the first
matching preview element from the preview area (`querySelector` + `remove`),
fire `onFileRemoved` when the registry shrank, return whether it shrank. -/
def removeFile (s : SDKState) (fileName : String) : SDKState × Bool :=
  let initialLength := s.selectedFiles.length
  let newFiles := s.selectedFiles.filter (fun file => file.name != fileName)
  let newAttached := s.attached.eraseP (fun cid => containerName s cid == some fileName)
  let wasRemoved : Bool := decide (newFiles.length < initialLength)
  ({ s with selectedFiles := newFiles, attached := newAttached,
            events := if wasRemoved then s.events ++ [Event.fileRemoved fileName]
                      else s.events },
   wasRemoved)

/-- `clearFiles()`: empty the registry and the preview area; no callbacks. -/
def clearFiles (s : SDKState) : SDKState :=
  { s with selectedFiles := [], attached := [] }

/-- The `reader.onloadend` continuation for container `cid`: if that reader is
still in flight, append the decoded image to the captured container —
unconditionally, with no check that the file is still in the registry. -/
def readerLoadend (s : SDKState) (cid : Nat) : SDKState :=
  if s.pending.contains cid then
    { s with pending := s.pending.erase cid,
             containers := s.containers.map
               (fun c => if c.cid == cid then { c with hasImage := true } else c) }
  else s

/-- The externally triggerable transitions after construction: the public
operations plus the asynchronous FileReader completions. -/
inductive Op where
  | addFilesOp (files : List JsFile)
  | removeFileOp (fileName : String)
  | clearFilesOp
  | loadendOp (cid : Nat)

/-- Apply one transition. -/
def applyOp (cfg : Config) (s : SDKState) : Op → SDKState
  | Op.addFilesOp files => handleFiles cfg s files
  | Op.removeFileOp n => (removeFile s n).1
  | Op.clearFilesOp => clearFiles s
  | Op.loadendOp cid => readerLoadend s cid

/-- Run a sequence of transitions from the freshly constructed state. -/
def run (cfg : Config) (ops : List Op) : SDKState :=
  ops.foldl (applyOp cfg) initState

/-! ## Construction (`constructor(config)`) -/

/-- The `config.labels` object as supplied by the caller; `none` fields are
absent properties. -/
structure RawLabels where
  dropText : Option String := none
  helpText : Option String := none
deriving DecidableEq

/-- The raw `config` argument of the constructor; `none` fields are absent
properties. Callback and icon options carry no intake logic and are omitted. -/
structure RawConfig where
  containerId : Option String := none
  maxFiles : Option Nat := none
  inputName : Option String := none
  maxSizeMB : Option Nat := none
  allowedTypes : Option (List String) := none
  labels : Option RawLabels := none
deriving DecidableEq

/-- An exception escaping the constructor: an explicit `new Error(...)` or the
TypeError raised by reading a property of `undefined`. -/
inductive JsError where
  | jsError (message : String)
  | typeError (message : String)
deriving DecidableEq

/-- The observable result of a successful construction: the resolved
configuration fields. -/
structure Widget where
  maxFiles : Nat
  inputName : String
  maxSizeMB : Nat
  allowedTypes : List String
  dropText : String
  helpText : String
deriving DecidableEq

/-- `x || d` for a JavaScript numeric option: absent and `0` are falsy. -/
def orDefaultNat : Option Nat → Nat → Nat
  | none, d => d
  | some v, d => if v = 0 then d else v

/-- `x || d` for a JavaScript string option: absent and `""` are falsy. -/
def orDefaultStr : Option String → String → String
  | none, d => d
  | some s, d => if s = "" then d else s

/-- The truthy value of a JavaScript string option, if any. -/
def truthyStr : Option String → Option String
  | none => none
  | some s => if s = "" then none else some s

/-- `String.prototype.replace` with a string pattern: first occurrence only. -/
def replaceFirst (s pat rep : String) : String :=
  match s.splitOn pat with
  | [] => s
  | [x] => x
  | x :: rest => x ++ rep ++ String.intercalate pat rest

/-- The default `allowedTypes` list of the constructor. -/
def defaultAllowedTypes : List String :=
  ["image/jpeg", "image/png", "image/gif", "image/webp", "application/pdf",
   "image/svg+xml"]

/-- The constructor. `dom` is the set of element ids resolvable by
`document.getElementById`. Evaluating the `labels.helpText` default invokes
`this._getAllowedTypesString`, which reads `this.config.allowedTypes` while
`this.config` is still unassigned (the config object literal is being built),
so that path raises a TypeError. -/
def construct (dom : List String) (config : RawConfig) : Except JsError Widget :=
  match truthyStr config.containerId with
  | none => Except.error (JsError.jsError "FileUploadSDK: containerId is required")
  | some cid =>
    if !(dom.contains cid) then
      Except.error (JsError.jsError
        ("FileUploadSDK: Element with ID '" ++ cid ++ "' not found"))
    else
      let maxFiles := orDefaultNat config.maxFiles 10
      let inputName := orDefaultStr config.inputName "files[]"
      let maxSizeMB := orDefaultNat config.maxSizeMB 5
      let allowedTypes := config.allowedTypes.getD defaultAllowedTypes
      let dropText := orDefaultStr (config.labels.bind RawLabels.dropText)
        "Upload or drag and drop here"
      match truthyStr (config.labels.bind RawLabels.helpText) with
      | none =>
        Except.error (JsError.typeError
          "Cannot read properties of undefined (reading 'allowedTypes')")
      | some ht =>
        let helpText :=
          replaceFirst (replaceFirst ht "{maxFiles}" (toString maxFiles))
            "{maxSize}" (toString maxSizeMB)
        Except.ok ⟨maxFiles, inputName, maxSizeMB, allowedTypes, dropText, helpText⟩

/-! ## Helper lemmas -/

/-- One `_handleFiles` iteration either leaves the registry unchanged or
appends exactly the candidate, and it appends only when the candidate passed
capacity, validation and the duplicate test. -/
theorem handleFile_cases (cfg : Config) (s : SDKState) (file : JsFile) :
    (handleFile cfg s file).selectedFiles = s.selectedFiles ∨
    ((handleFile cfg s file).selectedFiles = s.selectedFiles ++ [file] ∧
      s.selectedFiles.length < cfg.maxFiles ∧
      validateFile cfg file = none ∧ isDuplicate s file = false) := by
  unfold handleFile
  split
  · exact Or.inl rfl
  · rename_i hlen
    split
    · exact Or.inl rfl
    · rename_i hv
      split
      · exact Or.inl rfl
      · rename_i hdup
        refine Or.inr ⟨?_, by omega, hv, by simpa using hdup⟩
        simp only [createPreview]
        split <;> rfl

theorem handleFile_length_le (cfg : Config) (s : SDKState) (file : JsFile)
    (h : s.selectedFiles.length ≤ cfg.maxFiles) :
    (handleFile cfg s file).selectedFiles.length ≤ cfg.maxFiles := by
  rcases handleFile_cases cfg s file with h1 | ⟨h1, h2, _⟩
  · rw [h1]; exact h
  · rw [h1]; simp only [List.length_append, List.length_singleton]; omega

theorem handleFiles_length_le (cfg : Config) (files : List JsFile) :
    ∀ s : SDKState, s.selectedFiles.length ≤ cfg.maxFiles →
      (handleFiles cfg s files).selectedFiles.length ≤ cfg.maxFiles := by
  induction files with
  | nil => intro s h; exact h
  | cons f fs ih =>
    intro s h
    exact ih (handleFile cfg s f) (handleFile_length_le cfg s f h)

theorem removeFile_fst_selectedFiles (s : SDKState) (n : String) :
    (removeFile s n).1.selectedFiles =
      s.selectedFiles.filter (fun file => file.name != n) := rfl

theorem removeFile_sublist (s : SDKState) (n : String) :
    ((removeFile s n).1.selectedFiles).Sublist s.selectedFiles := by
  rw [removeFile_fst_selectedFiles]
  exact List.filter_sublist s.selectedFiles

theorem applyOp_length_le (cfg : Config) (op : Op) (s : SDKState)
    (h : s.selectedFiles.length ≤ cfg.maxFiles) :
    (applyOp cfg s op).selectedFiles.length ≤ cfg.maxFiles := by
  cases op with
  | addFilesOp files => exact handleFiles_length_le cfg files s h
  | removeFileOp n =>
    exact le_trans (removeFile_sublist s n).length_le h
  | clearFilesOp => exact Nat.zero_le _
  | loadendOp cid =>
    show (readerLoadend s cid).selectedFiles.length ≤ cfg.maxFiles
    unfold readerLoadend
    split <;> exact h

theorem run_length_le (cfg : Config) (ops : List Op) :
    (run cfg ops).selectedFiles.length ≤ cfg.maxFiles := by
  suffices h : ∀ s : SDKState, s.selectedFiles.length ≤ cfg.maxFiles →
      (ops.foldl (applyOp cfg) s).selectedFiles.length ≤ cfg.maxFiles by
    exact h initState (Nat.zero_le _)
  induction ops with
  | nil => intro s h; exact h
  | cons op rest ih =>
    intro s h
    exact ih (applyOp cfg s op) (applyOp_length_le cfg op s h)

/-! ## Claims -/

/-- C1: for every policy with positive `maxFiles` and every sequence of public
operations starting from the empty registry, the registry length never exceeds
`maxFiles`; the registry grows only by appending a candidate that passed
admission (capacity, validation and duplicate checks) and shrinks only via
`removeFile` (a sublist of the previous registry) or `clearFiles` (empty). -/
theorem registry_never_exceeds_capacity (cfg : Config) (_hpos : 0 < cfg.maxFiles)
    (ops : List Op) (file : JsFile) (n : String) :
    (run cfg ops).selectedFiles.length ≤ cfg.maxFiles ∧
    ((handleFile cfg (run cfg ops) file).selectedFiles = (run cfg ops).selectedFiles ∨
      ((handleFile cfg (run cfg ops) file).selectedFiles =
          (run cfg ops).selectedFiles ++ [file] ∧
        (run cfg ops).selectedFiles.length < cfg.maxFiles ∧
        validateFile cfg file = none ∧ isDuplicate (run cfg ops) file = false)) ∧
    ((removeFile (run cfg ops) n).1.selectedFiles).Sublist (run cfg ops).selectedFiles ∧
    (clearFiles (run cfg ops)).selectedFiles = [] :=
  ⟨run_length_le cfg ops, handleFile_cases cfg (run cfg ops) file,
   removeFile_sublist (run cfg ops) n, rfl⟩

/-- Witness for C1 at a concrete policy and operation sequence. -/
theorem registry_never_exceeds_capacity_witness :
    0 < (1 : Nat) ∧
    (run ⟨1, 5, defaultAllowedTypes⟩
        [Op.addFilesOp [⟨"a.png", 1, "image/png"⟩, ⟨"b.png", 2, "image/png"⟩]]
      ).selectedFiles.length ≤ 1 :=
  ⟨by decide,
   (registry_never_exceeds_capacity ⟨1, 5, defaultAllowedTypes⟩ (by decide)
      [Op.addFilesOp [⟨"a.png", 1, "image/png"⟩, ⟨"b.png", 2, "image/png"⟩]]
      ⟨"a.png", 1, "image/png"⟩ "a.png").1⟩

/-- C2: the admission checks run in the fixed order capacity, type, size,
duplicate; the first failing check alone determines the outcome and its reason
is the one reported; a rejected candidate changes nothing but the event log,
and a duplicate-skipped candidate changes nothing at all. -/
theorem admission_order_first_failure (cfg : Config) (s : SDKState) (file : JsFile) :
    (s.selectedFiles.length ≥ cfg.maxFiles →
      handleFile cfg s file =
        { s with events := s.events ++ [Event.validationFail (capacityMsg cfg)] }) ∧
    (s.selectedFiles.length < cfg.maxFiles →
      file.type ∉ cfg.allowedTypes →
      handleFile cfg s file =
        { s with events := s.events ++ [Event.validationFail (typeMsg cfg file)] }) ∧
    (s.selectedFiles.length < cfg.maxFiles →
      file.type ∈ cfg.allowedTypes →
      file.size > cfg.maxSizeMB * 1024 * 1024 →
      handleFile cfg s file =
        { s with events := s.events ++ [Event.validationFail (sizeMsg cfg file)] }) ∧
    (s.selectedFiles.length < cfg.maxFiles →
      file.type ∈ cfg.allowedTypes →
      file.size ≤ cfg.maxSizeMB * 1024 * 1024 →
      isDuplicate s file = true →
      handleFile cfg s file = s) := by
  refine ⟨fun h1 => ?_, fun h1 h2 => ?_, fun h1 h2 h3 => ?_, fun h1 h2 h3 h4 => ?_⟩
  · simp [handleFile, h1]
  · have hne : ¬ s.selectedFiles.length ≥ cfg.maxFiles := by omega
    simp [handleFile, hne, validateFile, h2]
  · have hne : ¬ s.selectedFiles.length ≥ cfg.maxFiles := by omega
    simp [handleFile, hne, validateFile, h2, h3]
  · have hne : ¬ s.selectedFiles.length ≥ cfg.maxFiles := by omega
    have hns : ¬ file.size > cfg.maxSizeMB * 1024 * 1024 := by omega
    simp [handleFile, hne, validateFile, h2, hns, h4]

/-- Witness for C2: a full registry rejects for capacity with the capacity
reason and only the event log changes. -/
theorem admission_order_first_failure_witness :
    handleFile ⟨1, 5, defaultAllowedTypes⟩
        { initState with selectedFiles := [⟨"a.png", 1, "image/png"⟩] }
        ⟨"b.png", 2, "image/png"⟩ =
      { initState with
        selectedFiles := [⟨"a.png", 1, "image/png"⟩],
        events := [Event.validationFail "Maximum number of files (1) reached."] } :=
  (admission_order_first_failure ⟨1, 5, defaultAllowedTypes⟩
      { initState with selectedFiles := [⟨"a.png", 1, "image/png"⟩] }
      ⟨"b.png", 2, "image/png"⟩).1 (by decide)

/-- C3 counterexample: with two entries named "a.png" (sizes 1 and 2),
`removeFile "a.png"` empties the registry; it does not leave the
later-inserted entry named "a.png" as the claim states. -/
theorem removeFile_first_only_counterexample :
    (removeFile
        { initState with
          selectedFiles := [⟨"a.png", 1, "image/png"⟩, ⟨"a.png", 2, "image/png"⟩] }
        "a.png").1.selectedFiles = [] ∧
    (removeFile
        { initState with
          selectedFiles := [⟨"a.png", 1, "image/png"⟩, ⟨"a.png", 2, "image/png"⟩] }
        "a.png").1.selectedFiles ≠ [⟨"a.png", 2, "image/png"⟩] := by decide

/-- C3 (amended): for every registry containing two or more entries named `n`,
`removeFile n` removes every entry whose name equals `n` — not only the
earliest-inserted one — and leaves every entry with a different name in the
registry in its original order. -/
theorem removeFile_removes_all_matching (s : SDKState) (n : String)
    (_h : 2 ≤ (s.selectedFiles.filter (fun f => f.name == n)).length) :
    ((removeFile s n).1.selectedFiles).Sublist s.selectedFiles ∧
    (∀ f ∈ (removeFile s n).1.selectedFiles, f.name ≠ n) ∧
    (∀ f ∈ s.selectedFiles, f.name ≠ n → f ∈ (removeFile s n).1.selectedFiles) := by
  refine ⟨removeFile_sublist s n, ?_, ?_⟩
  · intro f hf
    rw [removeFile_fst_selectedFiles] at hf
    have := List.of_mem_filter hf
    simpa using this
  · intro f hf hne
    rw [removeFile_fst_selectedFiles]
    exact List.mem_filter.mpr ⟨hf, by simpa using hne⟩

/-- Witness for the amended C3 at a concrete two-entry registry. -/
theorem removeFile_removes_all_matching_witness :
    2 ≤ (([⟨"a.png", 1, "image/png"⟩, ⟨"a.png", 2, "image/png"⟩] : List JsFile).filter
          (fun f => f.name == "a.png")).length ∧
    ((removeFile
        { initState with
          selectedFiles := [⟨"a.png", 1, "image/png"⟩, ⟨"a.png", 2, "image/png"⟩] }
        "a.png").1.selectedFiles).Sublist
      [⟨"a.png", 1, "image/png"⟩, ⟨"a.png", 2, "image/png"⟩] :=
  ⟨by decide,
   (removeFile_removes_all_matching
      { initState with
        selectedFiles := [⟨"a.png", 1, "image/png"⟩, ⟨"a.png", 2, "image/png"⟩] }
      "a.png" (by decide)).1⟩

/-- C4: the code evaluated at the failing input. Two admitted image files share
the name "a.png"; `removeFile` drops both registry entries but detaches only
the first preview element, and the second file's FileReader completion then
publishes its image into a container that is still attached to the preview
area although the registry is empty — no registry-membership check guards the
completion. -/
theorem stale_preview_applied_after_removal :
    (run ⟨10, 5, defaultAllowedTypes⟩
        [Op.addFilesOp [⟨"a.png", 1, "image/png"⟩, ⟨"a.png", 2, "image/png"⟩],
         Op.removeFileOp "a.png", Op.loadendOp 1]).selectedFiles = [] ∧
    (run ⟨10, 5, defaultAllowedTypes⟩
        [Op.addFilesOp [⟨"a.png", 1, "image/png"⟩, ⟨"a.png", 2, "image/png"⟩],
         Op.removeFileOp "a.png", Op.loadendOp 1]).attached = [1] ∧
    DomContainer.mk 1 "a.png" true ∈
      (run ⟨10, 5, defaultAllowedTypes⟩
        [Op.addFilesOp [⟨"a.png", 1, "image/png"⟩, ⟨"a.png", 2, "image/png"⟩],
         Op.removeFileOp "a.png", Op.loadendOp 1]).containers := by decide

/-- C5: the constructor evaluated at the failing input. With a resolvable
container and `labels` omitted, construction throws a TypeError (the
`helpText` default reads `this.config.allowedTypes` before `this.config` is
assigned) instead of succeeding with the documented defaults. -/
theorem construct_typeerror_without_helpText :
    construct ["uploader"] { containerId := some "uploader" } =
      Except.error (JsError.typeError
        "Cannot read properties of undefined (reading 'allowedTypes')") := rfl

/-! ## Branch equations for `handleFile` and `_validateFile` -/

theorem handleFile_capacity (cfg : Config) (s : SDKState) (file : JsFile)
    (h : s.selectedFiles.length ≥ cfg.maxFiles) :
    handleFile cfg s file =
      { s with events := s.events ++ [Event.validationFail (capacityMsg cfg)] } := by
  simp [handleFile, h]

theorem validateFile_type (cfg : Config) (file : JsFile)
    (h : file.type ∉ cfg.allowedTypes) :
    validateFile cfg file = some (typeMsg cfg file) := by
  simp [validateFile, h]

theorem validateFile_size (cfg : Config) (file : JsFile)
    (h2 : file.type ∈ cfg.allowedTypes)
    (h3 : file.size > cfg.maxSizeMB * 1024 * 1024) :
    validateFile cfg file = some (sizeMsg cfg file) := by
  simp [validateFile, h2, h3]

theorem validateFile_ok (cfg : Config) (file : JsFile)
    (h2 : file.type ∈ cfg.allowedTypes)
    (h3 : file.size ≤ cfg.maxSizeMB * 1024 * 1024) :
    validateFile cfg file = none := by
  have h4 : ¬ (file.size > cfg.maxSizeMB * 1024 * 1024) := by omega
  simp [validateFile, h2, h4]

theorem handleFile_invalid (cfg : Config) (s : SDKState) (file : JsFile)
    (err : String) (hlen : s.selectedFiles.length < cfg.maxFiles)
    (hv : validateFile cfg file = some err) :
    handleFile cfg s file =
      { s with events := s.events ++ [Event.validationFail err] } := by
  have hne : ¬ s.selectedFiles.length ≥ cfg.maxFiles := by omega
  simp [handleFile, hne, hv]

theorem handleFile_dup (cfg : Config) (s : SDKState) (file : JsFile)
    (hlen : s.selectedFiles.length < cfg.maxFiles)
    (hv : validateFile cfg file = none) (hdup : isDuplicate s file = true) :
    handleFile cfg s file = s := by
  have hne : ¬ s.selectedFiles.length ≥ cfg.maxFiles := by omega
  simp [handleFile, hne, hv, hdup]

theorem handleFile_admit (cfg : Config) (s : SDKState) (file : JsFile)
    (hlen : s.selectedFiles.length < cfg.maxFiles)
    (hv : validateFile cfg file = none) (hdup : isDuplicate s file = false) :
    (handleFile cfg s file).selectedFiles = s.selectedFiles ++ [file] ∧
    (handleFile cfg s file).events = s.events ++ [Event.fileAdded file] := by
  have hne : ¬ s.selectedFiles.length ≥ cfg.maxFiles := by omega
  constructor <;>
    · simp only [handleFile, hv, hdup]
      rw [if_neg hne]
      simp only [createPreview, Bool.false_eq_true, if_false]
      split <;> rfl

/-- C6 counterexample: with exactly one free capacity slot (`maxFiles = 1`,
empty registry) and an individually valid file `f`, `intake([f, f])` fires a
validation-failure notification for the second copy — the capacity check
precedes the duplicate check — refuting the claimed zero failure
notifications. -/
theorem duplicate_intake_counterexample :
    (handleFiles ⟨1, 5, defaultAllowedTypes⟩ initState
        [⟨"a.png", 7, "image/png"⟩, ⟨"a.png", 7, "image/png"⟩]).selectedFiles =
      [⟨"a.png", 7, "image/png"⟩] ∧
    (handleFiles ⟨1, 5, defaultAllowedTypes⟩ initState
        [⟨"a.png", 7, "image/png"⟩, ⟨"a.png", 7, "image/png"⟩]).events =
      [Event.fileAdded ⟨"a.png", 7, "image/png"⟩,
       Event.validationFail "Maximum number of files (1) reached."] := by decide

/-- C6 (amended): for every file `f` that passes the type and size checks,
with at least two free capacity slots and no pre-existing entry with `f`'s
(name, size), `intake([f, f])` from the empty registry yields registry length
1, exactly one "file added" notification and zero validation-failure
notifications — the duplicate second copy is silently skipped. (With exactly
one free slot the second copy is instead rejected for capacity.) -/
theorem duplicate_intake_idempotent (cfg : Config) (f : JsFile)
    (hcap : 2 ≤ cfg.maxFiles) (hv : validateFile cfg f = none) :
    (handleFiles cfg initState [f, f]).selectedFiles = [f] ∧
    (handleFiles cfg initState [f, f]).events = [Event.fileAdded f] := by
  have hlen0 : initState.selectedFiles.length < cfg.maxFiles := by
    show 0 < cfg.maxFiles; omega
  obtain ⟨hsel1, hev1⟩ := handleFile_admit cfg initState f hlen0 hv rfl
  have hdup1 : isDuplicate (handleFile cfg initState f) f = true := by
    unfold isDuplicate
    rw [hsel1]
    simp [initState]
  have hlen1 : (handleFile cfg initState f).selectedFiles.length < cfg.maxFiles := by
    rw [hsel1]
    simp only [initState, List.nil_append, List.length_singleton]
    omega
  have h2 := handleFile_dup cfg (handleFile cfg initState f) f hlen1 hv hdup1
  refine ⟨?_, ?_⟩
  · show (handleFile cfg (handleFile cfg initState f) f).selectedFiles = [f]
    rw [h2, hsel1]; rfl
  · show (handleFile cfg (handleFile cfg initState f) f).events = [Event.fileAdded f]
    rw [h2, hev1]; rfl

/-- Witness for the amended C6 at a concrete policy and file. -/
theorem duplicate_intake_idempotent_witness :
    2 ≤ (2 : Nat) ∧
    validateFile ⟨2, 5, defaultAllowedTypes⟩ ⟨"a.png", 7, "image/png"⟩ = none ∧
    (handleFiles ⟨2, 5, defaultAllowedTypes⟩ initState
        [⟨"a.png", 7, "image/png"⟩, ⟨"a.png", 7, "image/png"⟩]).selectedFiles =
      [⟨"a.png", 7, "image/png"⟩] ∧
    (handleFiles ⟨2, 5, defaultAllowedTypes⟩ initState
        [⟨"a.png", 7, "image/png"⟩, ⟨"a.png", 7, "image/png"⟩]).events =
      [Event.fileAdded ⟨"a.png", 7, "image/png"⟩] :=
  ⟨by decide, by decide,
   (duplicate_intake_idempotent ⟨2, 5, defaultAllowedTypes⟩ ⟨"a.png", 7, "image/png"⟩
      (by decide) (by decide)).1,
   (duplicate_intake_idempotent ⟨2, 5, defaultAllowedTypes⟩ ⟨"a.png", 7, "image/png"⟩
      (by decide) (by decide)).2⟩

/-- C7: every file larger than `maxSizeBytes` is rejected: the registry is
never mutated and exactly one validation-failure notification fires; when the
type is allowed and capacity is available, the reason is the size message,
naming the file, its size in MB to two decimals and the configured maximum. -/
theorem oversize_intake_rejected (cfg : Config) (s : SDKState) (f : JsFile)
    (hsize : f.size > cfg.maxSizeMB * 1024 * 1024) :
    (handleFile cfg s f).selectedFiles = s.selectedFiles ∧
    (∃ r, (handleFile cfg s f).events = s.events ++ [Event.validationFail r]) ∧
    (s.selectedFiles.length < cfg.maxFiles → f.type ∈ cfg.allowedTypes →
      (handleFile cfg s f).events =
        s.events ++ [Event.validationFail (sizeMsg cfg f)]) := by
  by_cases hlen : s.selectedFiles.length ≥ cfg.maxFiles
  · rw [handleFile_capacity cfg s f hlen]
    exact ⟨rfl, ⟨capacityMsg cfg, rfl⟩, fun hlt _ => absurd hlen (by omega)⟩
  · have hlt : s.selectedFiles.length < cfg.maxFiles := by omega
    by_cases hty : f.type ∈ cfg.allowedTypes
    · rw [handleFile_invalid cfg s f _ hlt (validateFile_size cfg f hty hsize)]
      exact ⟨rfl, ⟨sizeMsg cfg f, rfl⟩, fun _ _ => rfl⟩
    · rw [handleFile_invalid cfg s f _ hlt (validateFile_type cfg f hty)]
      exact ⟨rfl, ⟨typeMsg cfg f, rfl⟩, fun _ h2 => absurd h2 hty⟩

/-- Witness for C7: a 2 MB PNG under a 1 MB limit is rejected with a message
mentioning "2.00 MB" and "Maximum size is 1 MB", leaving the registry empty. -/
theorem oversize_intake_rejected_witness :
    2097152 > 1 * 1024 * 1024 ∧
    (handleFile ⟨10, 1, defaultAllowedTypes⟩ initState
        ⟨"photo.png", 2097152, "image/png"⟩).selectedFiles = [] ∧
    (handleFile ⟨10, 1, defaultAllowedTypes⟩ initState
        ⟨"photo.png", 2097152, "image/png"⟩).events =
      [Event.validationFail
        "File is too large: photo.png (2.00 MB). Maximum size is 1 MB."] := by
  refine ⟨by decide, ?_, ?_⟩
  · exact (oversize_intake_rejected ⟨10, 1, defaultAllowedTypes⟩ initState
      ⟨"photo.png", 2097152, "image/png"⟩ (by decide)).1
  · have h := (oversize_intake_rejected ⟨10, 1, defaultAllowedTypes⟩ initState
      ⟨"photo.png", 2097152, "image/png"⟩ (by decide)).2.2 (by decide) (by decide)
    rw [h]; decide

/-- C8: candidates in one batch are processed strictly in input order against
the registry state left by earlier admissions in the same batch: with
`maxFiles = 1`, an empty registry and two individually valid files,
`intake([fA, fB])` admits `fA` and rejects `fB` for capacity. -/
theorem batch_order_capacity (cfg : Config) (fA fB : JsFile)
    (hmax : cfg.maxFiles = 1) (hA : validateFile cfg fA = none)
    (_hB : validateFile cfg fB = none) (_hAB : fA ≠ fB) :
    (handleFiles cfg initState [fA, fB]).selectedFiles = [fA] ∧
    (handleFiles cfg initState [fA, fB]).events =
      [Event.fileAdded fA, Event.validationFail (capacityMsg cfg)] := by
  have hlen0 : initState.selectedFiles.length < cfg.maxFiles := by
    show 0 < cfg.maxFiles; omega
  obtain ⟨hsel1, hev1⟩ := handleFile_admit cfg initState fA hlen0 hA rfl
  have hlen1 : (handleFile cfg initState fA).selectedFiles.length ≥ cfg.maxFiles := by
    rw [hsel1, hmax]; rfl
  have h2 := handleFile_capacity cfg (handleFile cfg initState fA) fB hlen1
  refine ⟨?_, ?_⟩
  · show (handleFile cfg (handleFile cfg initState fA) fB).selectedFiles = [fA]
    rw [h2]
    show (handleFile cfg initState fA).selectedFiles = [fA]
    rw [hsel1]; rfl
  · show (handleFile cfg (handleFile cfg initState fA) fB).events =
      [Event.fileAdded fA, Event.validationFail (capacityMsg cfg)]
    rw [h2]
    show (handleFile cfg initState fA).events ++ _ = _
    rw [hev1]; rfl

/-- Witness for C8 at a concrete one-slot policy and two valid files. -/
theorem batch_order_capacity_witness :
    (handleFiles ⟨1, 5, defaultAllowedTypes⟩ initState
        [⟨"a.png", 1, "image/png"⟩, ⟨"b.png", 2, "image/png"⟩]).selectedFiles =
      [⟨"a.png", 1, "image/png"⟩] ∧
    (handleFiles ⟨1, 5, defaultAllowedTypes⟩ initState
        [⟨"a.png", 1, "image/png"⟩, ⟨"b.png", 2, "image/png"⟩]).events =
      [Event.fileAdded ⟨"a.png", 1, "image/png"⟩,
       Event.validationFail (capacityMsg ⟨1, 5, defaultAllowedTypes⟩)] :=
  batch_order_capacity ⟨1, 5, defaultAllowedTypes⟩
    ⟨"a.png", 1, "image/png"⟩ ⟨"b.png", 2, "image/png"⟩
    rfl (by decide) (by decide) (by decide)

/-! ## Removal and construction lemmas -/

theorem length_filter_name_ne_lt_iff (l : List JsFile) (n : String) :
    (l.filter (fun f => f.name != n)).length < l.length ↔ ∃ f ∈ l, f.name = n := by
  induction l with
  | nil => simp
  | cons a t ih =>
    by_cases ha : a.name = n
    · have hpa : (a.name != n) = false := by simp [ha]
      rw [List.filter_cons, hpa]
      simp only [Bool.false_eq_true, if_false, List.length_cons]
      constructor
      · intro _
        exact ⟨a, List.mem_cons_self a t, ha⟩
      · intro _
        have hle := List.length_filter_le (fun f => f.name != n) t
        omega
    · have hpa : (a.name != n) = true := by simp [ha]
      rw [List.filter_cons, hpa]
      simp only [if_true, List.length_cons, Nat.add_lt_add_iff_right, ih,
        List.mem_cons]
      constructor
      · rintro ⟨f, hf, hfn⟩
        exact ⟨f, Or.inr hf, hfn⟩
      · rintro ⟨f, hf | hf, hfn⟩
        · exact absurd (hf ▸ hfn) ha
        · exact ⟨f, hf, hfn⟩

theorem removeFile_snd (s : SDKState) (n : String) :
    (removeFile s n).2 =
      decide ((s.selectedFiles.filter (fun f => f.name != n)).length <
        s.selectedFiles.length) := rfl

theorem removeFile_fst_events (s : SDKState) (n : String) :
    (removeFile s n).1.events =
      (if (removeFile s n).2 then s.events ++ [Event.fileRemoved n]
       else s.events) := rfl

/-- C9: `removeFile n` returns true and fires the "file removed" notification
exactly once if and only if an entry named `n` existed; calling it twice in a
row for the same name returns true then false (the second call never
removes). -/
theorem removeFile_result_iff_existed (s : SDKState) (n : String) :
    ((removeFile s n).2 = true ↔ ∃ f ∈ s.selectedFiles, f.name = n) ∧
    ((removeFile s n).2 = true →
      (removeFile s n).1.events = s.events ++ [Event.fileRemoved n]) ∧
    ((removeFile s n).2 = false → (removeFile s n).1.events = s.events) ∧
    (removeFile (removeFile s n).1 n).2 = false := by
  refine ⟨?_, ?_, ?_, ?_⟩
  · rw [removeFile_snd, decide_eq_true_eq]
    exact length_filter_name_ne_lt_iff s.selectedFiles n
  · intro h
    rw [removeFile_fst_events, h, if_pos rfl]
  · intro h
    rw [removeFile_fst_events, h]
    rfl
  · rw [removeFile_snd, removeFile_fst_selectedFiles]
    have hself : (s.selectedFiles.filter (fun f => f.name != n)).filter
        (fun f => f.name != n) = s.selectedFiles.filter (fun f => f.name != n) :=
      List.filter_eq_self.mpr (fun a ha => (List.mem_filter.mp ha).2)
    rw [hself]
    simp

/-- Witness for C9: removing an existing name returns true, a second call
returns false. -/
theorem removeFile_result_iff_existed_witness :
    (removeFile { initState with selectedFiles := [⟨"a.png", 1, "image/png"⟩] }
      "a.png").2 = true ∧
    (removeFile
      (removeFile { initState with selectedFiles := [⟨"a.png", 1, "image/png"⟩] }
        "a.png").1 "a.png").2 = false :=
  ⟨(removeFile_result_iff_existed
      { initState with selectedFiles := [⟨"a.png", 1, "image/png"⟩] } "a.png").1.mpr
    ⟨⟨"a.png", 1, "image/png"⟩, by decide, rfl⟩,
   (removeFile_result_iff_existed
      { initState with selectedFiles := [⟨"a.png", 1, "image/png"⟩] } "a.png").2.2.2⟩

theorem construct_ok_shape (dom : List String) (rc : RawConfig) (w : Widget)
    (h : construct dom rc = Except.ok w) :
    w.maxFiles = orDefaultNat rc.maxFiles 10 ∧
    w.maxSizeMB = orDefaultNat rc.maxSizeMB 5 := by
  unfold construct at h
  split at h
  · cases h
  · split at h
    · cases h
    · split at h
      · cases h
      · cases h
        exact ⟨rfl, rfl⟩

theorem construct_congr (dom : List String) (rc1 rc2 : RawConfig)
    (hcid : rc1.containerId = rc2.containerId)
    (hmf : orDefaultNat rc1.maxFiles 10 = orDefaultNat rc2.maxFiles 10)
    (hin : rc1.inputName = rc2.inputName)
    (hms : orDefaultNat rc1.maxSizeMB 5 = orDefaultNat rc2.maxSizeMB 5)
    (hal : rc1.allowedTypes = rc2.allowedTypes)
    (hlb : rc1.labels = rc2.labels) :
    construct dom rc1 = construct dom rc2 := by
  unfold construct
  rw [hcid, hmf, hin, hms, hal, hlb]

/-- C10: a falsy `maxFiles` or `maxSizeMB` (`0`, or the option omitted)
silently resolves to the defaults 10 and 5 respectively: construction with the
option set to 0 behaves exactly as construction with the option omitted, and
any widget so constructed carries the default bound, so a zero capacity or a
zero-MB size limit cannot be configured. -/
theorem falsy_options_use_defaults (dom : List String) (rc : RawConfig) :
    construct dom { rc with maxFiles := some 0 } =
      construct dom { rc with maxFiles := none } ∧
    construct dom { rc with maxSizeMB := some 0 } =
      construct dom { rc with maxSizeMB := none } ∧
    (construct dom { rc with maxFiles := some 0 }).map Widget.maxFiles =
      (construct dom { rc with maxFiles := some 0 }).map (fun _ => 10) ∧
    (construct dom { rc with maxSizeMB := some 0 }).map Widget.maxSizeMB =
      (construct dom { rc with maxSizeMB := some 0 }).map (fun _ => 5) := by
  refine ⟨construct_congr dom _ _ rfl rfl rfl rfl rfl rfl,
    construct_congr dom _ _ rfl rfl rfl rfl rfl rfl, ?_, ?_⟩
  · cases h : construct dom { rc with maxFiles := some 0 } with
    | error e => rfl
    | ok w =>
      have hw := (construct_ok_shape dom _ w h).1
      simp only [Except.map, hw]
      rfl
  · cases h : construct dom { rc with maxSizeMB := some 0 } with
    | error e => rfl
    | ok w =>
      have hw := (construct_ok_shape dom _ w h).2
      simp only [Except.map, hw]
      rfl

end FileUploadSDK
